import Mathlib

/-!
# Verification of the friendship-ai-backend personality/matching core

Shallow embedding of the algorithmic core of the repository:
* `src/services/personality_analyzer.py` — evidence combination and the
  exponential-moving-average profile update;
* `src/services/conversation_ai.py` — the phase state machine and the
  completion gate;
* `src/services/matching_engine.py` — trait compatibility, interest overlap,
  communication compatibility, friendship-type prediction, reasons/challenges
  and pool ranking.

Python floats are embedded as exact rationals (`ℚ`); Python's `round(x, 3)`
is embedded as rounding to the nearest multiple of 1/1000 (`round3`).
-/

namespace FriendshipAI

/-- The five Big Five traits (`PersonalityTrait` in `models/personality.py`). -/
structure TraitVec where
  openness : ℚ
  conscientiousness : ℚ
  extraversion : ℚ
  agreeableness : ℚ
  neuroticism : ℚ
deriving DecidableEq, Repr

/-- The fields of `PersonalityProfile` (`models/personality.py`) that the
algorithmic core reads or writes.  `datetime` metadata is omitted. -/
structure PersonalityProfile where
  user_id : String
  openness : ℚ := 1/2
  conscientiousness : ℚ := 1/2
  extraversion : ℚ := 1/2
  agreeableness : ℚ := 1/2
  neuroticism : ℚ := 1/2
  communication_style : Option String := none
  interests : List String := []
  analysis_confidence : ℚ := 0
  total_messages_analyzed : ℤ := 0
  is_complete : Bool := false
deriving DecidableEq, Repr

/-- `PersonalityAnalyzer.analyze_message`, final combination step
(lines 137–144): per trait, `keyword_score * 0.3 + llm_score * 0.7`. -/
def combineScores (keyword llm : TraitVec) : TraitVec where
  openness := keyword.openness * (3/10) + llm.openness * (7/10)
  conscientiousness := keyword.conscientiousness * (3/10) + llm.conscientiousness * (7/10)
  extraversion := keyword.extraversion * (3/10) + llm.extraversion * (7/10)
  agreeableness := keyword.agreeableness * (3/10) + llm.agreeableness * (7/10)
  neuroticism := keyword.neuroticism * (3/10) + llm.neuroticism * (7/10)

/-- The learning rate of `PersonalityAnalyzer.update_personality_profile`
(line 244): `alpha = max(0.1, 1.0 / (message_count + 1))`. -/
def alphaOf (message_count : ℕ) : ℚ :=
  max (1/10) (1 / ((message_count : ℚ) + 1))

/-- `PersonalityAnalyzer.update_personality_profile` (lines 233–262) for a
non-negative `message_count`: exponential moving average on the five trait
scores, confidence `min(0.95, message_count / 50)`, and completion at
`message_count >= 30`. -/
def update_personality_profile (profile : PersonalityProfile) (new_scores : TraitVec)
    (message_count : ℕ) : PersonalityProfile :=
  let alpha := alphaOf message_count
  { profile with
    openness := (1 - alpha) * profile.openness + alpha * new_scores.openness
    conscientiousness :=
      (1 - alpha) * profile.conscientiousness + alpha * new_scores.conscientiousness
    extraversion := (1 - alpha) * profile.extraversion + alpha * new_scores.extraversion
    agreeableness := (1 - alpha) * profile.agreeableness + alpha * new_scores.agreeableness
    neuroticism := (1 - alpha) * profile.neuroticism + alpha * new_scores.neuroticism
    total_messages_analyzed := (message_count : ℤ)
    analysis_confidence := min (95/100) ((message_count : ℚ) / 50)
    is_complete := if 30 ≤ message_count then true else profile.is_complete }

/-- `PersonalityAnalyzer.update_personality_profile` on an arbitrary Python
`int` message count, as the code executes it: `1.0 / (message_count + 1)`
raises `ZeroDivisionError` when `message_count = -1`, and otherwise the body
runs unconditionally — there is no validation of `message_count` or of the
supplied scores. -/
def update_personality_profile_int (profile : PersonalityProfile) (new_scores : TraitVec)
    (message_count : ℤ) : Except String PersonalityProfile :=
  if message_count = -1 then .error "ZeroDivisionError" else
  let alpha : ℚ := max (1/10) (1 / ((message_count : ℚ) + 1))
  .ok { profile with
    openness := (1 - alpha) * profile.openness + alpha * new_scores.openness
    conscientiousness :=
      (1 - alpha) * profile.conscientiousness + alpha * new_scores.conscientiousness
    extraversion := (1 - alpha) * profile.extraversion + alpha * new_scores.extraversion
    agreeableness := (1 - alpha) * profile.agreeableness + alpha * new_scores.agreeableness
    neuroticism := (1 - alpha) * profile.neuroticism + alpha * new_scores.neuroticism
    total_messages_analyzed := message_count
    analysis_confidence := min (95/100) ((message_count : ℚ) / 50)
    is_complete := if 30 ≤ message_count then true else profile.is_complete }

/-- `ConversationAI._calculate_phase` (conversation_ai.py, lines 145–156). -/
def calculate_phase (message_count : ℕ) : ℕ :=
  if message_count < 6 then 1
  else if message_count < 12 then 2
  else if message_count < 18 then 3
  else if message_count < 24 then 4
  else 5

/-- The completion gate in `ConversationAI.process_message` (line 135):
`message_count >= 30 and profile.analysis_confidence >= 0.6`. -/
def completion_gate (message_count : ℕ) (analysis_confidence : ℚ) : Prop :=
  30 ≤ message_count ∧ 3/5 ≤ analysis_confidence

instance (n : ℕ) (c : ℚ) : Decidable (completion_gate n c) := by
  unfold completion_gate; infer_instance

/-! ## Matching engine (`matching_engine.py`) -/

/-- The result record of `MatchingEngine.calculate_match_score`
(`MatchScore` in `models/personality.py`, minus the `created_at` timestamp). -/
structure MatchScore where
  user_id_1 : String
  user_id_2 : String
  overall_score : ℚ
  trait_compatibility : TraitVec
  interest_overlap : ℚ
  communication_compatibility : ℚ
  predicted_friendship_type : String
  match_reasons : List String
  potential_challenges : List String
deriving DecidableEq, Repr

/-- Python's `round(x, 3)`: round to the nearest multiple of 1/1000 (Python's
exact tie behaviour on binary floats is representation-dependent; ties here
round up, which no claim depends on). -/
def round3 (q : ℚ) : ℚ := (round (q * 1000) : ℚ) / 1000

/-- `max(0.0, min(1.0, score))` (matching_engine.py, line 180). -/
def clamp01 (q : ℚ) : ℚ := max 0 (min 1 q)

/-- The `similar` rule of `_calculate_trait_compatibility` (lines 153–156). -/
def similar_score (v1 v2 : ℚ) : ℚ := 1 - |v1 - v2|

/-- The `balanced` rule of `_calculate_trait_compatibility` (lines 162–170). -/
def balanced_score (v1 v2 : ℚ) : ℚ :=
  let d := |v1 - v2|
  if d < 3/10 then 1 - d
  else if d < 1/2 then 7/10
  else 1/2 - (d - 1/2)

/-- The `low_both` rule of `_calculate_trait_compatibility` (lines 172–175). -/
def low_both_score (v1 v2 : ℚ) : ℚ := 1 - (v1 + v2) / 2

/-- `MatchingEngine._calculate_trait_compatibility` (lines 133–182), with the
fixed rule table `COMPATIBILITY_RULES`: openness/conscientiousness/agreeableness
`similar`, extraversion `balanced`, neuroticism `low_both`; every score is
clamped to [0,1] and rounded to 3 decimals. -/
def calculate_trait_compatibility (p1 p2 : PersonalityProfile) : TraitVec where
  openness := round3 (clamp01 (similar_score p1.openness p2.openness))
  conscientiousness := round3 (clamp01 (similar_score p1.conscientiousness p2.conscientiousness))
  extraversion := round3 (clamp01 (balanced_score p1.extraversion p2.extraversion))
  agreeableness := round3 (clamp01 (similar_score p1.agreeableness p2.agreeableness))
  neuroticism := round3 (clamp01 (low_both_score p1.neuroticism p2.neuroticism))

/-- `set(interest.lower() for interest in interests)`. -/
def interestSet (interests : List String) : Finset String :=
  (interests.map String.toLower).toFinset

/-- `MatchingEngine._calculate_interest_overlap` (lines 184–212). -/
def calculate_interest_overlap (p1 p2 : PersonalityProfile) : ℚ :=
  if p1.interests = [] ∨ p2.interests = [] then 1/2
  else
    let set1 := interestSet p1.interests
    let set2 := interestSet p2.interests
    if set1 = ∅ ∨ set2 = ∅ then 1/2
    else
      let inter := (set1 ∩ set2).card
      let uni := (set1 ∪ set2).card
      if uni = 0 then 1/2
      else
        let jaccard : ℚ := (inter : ℚ) / (uni : ℚ)
        if 2 ≤ inter then min 1 (jaccard + 1/10) else jaccard

/-- The `compatibility_matrix` of `_calculate_communication_compatibility`
(lines 228–242), as a partial lookup on ordered pairs. -/
def comm_matrix (s1 s2 : String) : Option ℚ :=
  if s1 = "direct" ∧ s2 = "direct" then some (8/10)
  else if s1 = "direct" ∧ s2 = "diplomatic" then some (6/10)
  else if s1 = "direct" ∧ s2 = "expressive" then some (1/2)
  else if s1 = "direct" ∧ s2 = "reserved" then some (4/10)
  else if s1 = "diplomatic" ∧ s2 = "diplomatic" then some (9/10)
  else if s1 = "diplomatic" ∧ s2 = "expressive" then some (7/10)
  else if s1 = "diplomatic" ∧ s2 = "reserved" then some (6/10)
  else if s1 = "expressive" ∧ s2 = "expressive" then some (85/100)
  else if s1 = "expressive" ∧ s2 = "reserved" then some (4/10)
  else if s1 = "reserved" ∧ s2 = "reserved" then some (7/10)
  else none

/-- `MatchingEngine._calculate_communication_compatibility` (lines 214–248):
0.5 when either style is falsy (`None` or the empty string), otherwise the
matrix looked up at `(style1, style2)`, falling back to `(style2, style1)`,
falling back to 0.5. -/
def calculate_communication_compatibility (p1 p2 : PersonalityProfile) : ℚ :=
  match p1.communication_style, p2.communication_style with
  | some s1, some s2 =>
    if s1 = "" ∨ s2 = "" then 1/2
    else
      match comm_matrix s1 s2 with
      | some v => v
      | none =>
        match comm_matrix s2 s1 with
        | some v => v
        | none => 1/2
  | _, _ => 1/2

/-- Python's `max(iterable, key=...)` over label/score pairs: keeps the first
maximal element, replacing the running best only on a strictly larger score. -/
def bestOf (best : String × ℚ) : List (String × ℚ) → String
  | [] => best.1
  | x :: xs => if best.2 < x.2 then bestOf x xs else bestOf best xs

/-- `MatchingEngine._predict_friendship_type` (lines 250–300). -/
def predict_friendship_type (p1 p2 : PersonalityProfile) (trait_scores : TraitVec) : String :=
  let avg_openness := (p1.openness + p2.openness) / 2
  let avg_extraversion := (p1.extraversion + p2.extraversion) / 2
  let avg_agreeableness := (p1.agreeableness + p2.agreeableness) / 2
  let avg_conscientiousness := (p1.conscientiousness + p2.conscientiousness) / 2
  let avg_neuroticism := (p1.neuroticism + p2.neuroticism) / 2
  let deep_score := avg_openness * (3/10) + avg_agreeableness * (4/10)
    + trait_scores.openness * (3/10)
  let activity_score := avg_extraversion * (4/10) + avg_conscientiousness * (3/10)
    + (1 - avg_neuroticism) * (3/10)
  let intellectual_score := avg_openness * (1/2) + avg_conscientiousness * (3/10)
    + trait_scores.openness * (2/10)
  let casual_score := avg_agreeableness * (4/10) + (1 - avg_neuroticism) * (4/10)
    + (1/2) * (2/10)
  bestOf ("deep", deep_score)
    [("activity_based", activity_score), ("intellectual", intellectual_score),
     ("casual", casual_score)]

/-- `set(profile1.interests) & set(profile2.interests)` (line 330; note: the
raw interests, not lowercased). -/
def common_interests (p1 p2 : PersonalityProfile) : Finset String :=
  p1.interests.toFinset ∩ p2.interests.toFinset

/-- Python's rendering of an optional string in an f-string. -/
def styleString : Option String → String
  | none => "None"
  | some s => s

/-- `MatchingEngine._generate_match_reasons` (lines 302–338).  Python's
`list(common)[:3]` iterates a hash set whose order is interpreter-dependent;
it is embedded here as the first three elements in lexicographic order. -/
def generate_match_reasons (p1 p2 : PersonalityProfile) (trait_scores : TraitVec)
    (interest_score : ℚ) : List String :=
  ((if 7/10 < trait_scores.openness then ["İkiniz de yeni deneyimlere açıksınız"] else [])
    ++ (if 7/10 < trait_scores.agreeableness then
        ["Benzer düzeyde anlayışlı ve empatiksiniz"] else [])
    ++ (if 7/10 < trait_scores.extraversion then ["Sosyal enerji seviyeniz uyumlu"] else [])
    ++ (if 7/10 < trait_scores.conscientiousness then
        ["Düzen ve planlama konusunda benzer yaklaşımlarınız var"] else [])
    ++ (if 7/10 < trait_scores.neuroticism then
        ["Duygusal olarak dengeli bir arkadaşlık kurabilirsiniz"] else [])
    ++ (if 1/2 < interest_score ∧ common_interests p1 p2 ≠ ∅ then
        ["Ortak ilgi alanlarınız var: "
          ++ String.intercalate ", " (((common_interests p1 p2).sort (· ≤ ·)).take 3)]
        else [])
    ++ (if p1.communication_style = p2.communication_style then
        ["İletişim stiliniz uyumlu: " ++ styleString p1.communication_style] else [])).take 5

/-- `MatchingEngine._identify_potential_challenges` (lines 340–372). -/
def identify_potential_challenges (p1 p2 : PersonalityProfile)
    (trait_scores : TraitVec) : List String :=
  ((if trait_scores.extraversion < 4/10 then
      (if 4/10 < |p1.extraversion - p2.extraversion| then
        (if p2.extraversion < p1.extraversion then
          ["Biri daha sosyal, diğeri daha içe dönük olabilir"]
        else ["Sosyallik seviyelerinde fark var"])
      else [])
    else [])
    ++ (if trait_scores.conscientiousness < 4/10 then
        ["Düzen ve planlama konusunda farklı yaklaşımlar olabilir"] else [])
    ++ (if trait_scores.neuroticism < 4/10 ∧ 6/10 < (p1.neuroticism + p2.neuroticism) / 2 then
        ["Stresli dönemlerde birbirinizi etkileyebilirsiniz"] else [])
    ++ (if p1.communication_style = some "direct" ∧ p2.communication_style = some "reserved" then
        ["İletişim tarzlarınız farklı - sabır gerekebilir"] else [])).take 3

/-- Sum of the five per-trait compatibility scores
(`sum(trait_scores.values())`). -/
def traitSum (tv : TraitVec) : ℚ :=
  tv.openness + tv.conscientiousness + tv.extraversion + tv.agreeableness + tv.neuroticism

/-- `MatchingEngine.calculate_match_score` (lines 79–131). -/
def calculate_match_score (p1 p2 : PersonalityProfile) : MatchScore :=
  let trait_scores := calculate_trait_compatibility p1 p2
  let interest_score := calculate_interest_overlap p1 p2
  let comm_score := calculate_communication_compatibility p1 p2
  let overall_score := traitSum trait_scores / 5 * (1/2)
    + interest_score * (3/10) + comm_score * (2/10)
  { user_id_1 := p1.user_id
    user_id_2 := p2.user_id
    overall_score := round3 overall_score
    trait_compatibility := trait_scores
    interest_overlap := round3 interest_score
    communication_compatibility := round3 comm_score
    predicted_friendship_type := predict_friendship_type p1 p2 trait_scores
    match_reasons := generate_match_reasons p1 p2 trait_scores interest_score
    potential_challenges := identify_potential_challenges p1 p2 trait_scores }

/-- Descending comparison on overall scores, the order used by
`matches.sort(key=lambda x: x.overall_score, reverse=True)`. -/
def msGe (a b : MatchScore) : Prop := b.overall_score ≤ a.overall_score

instance : DecidableRel msGe := fun a b =>
  (inferInstance : Decidable (b.overall_score ≤ a.overall_score))

instance : IsTotal MatchScore msGe := ⟨fun a b => le_total b.overall_score a.overall_score⟩

instance : IsTrans MatchScore msGe := ⟨fun _ _ _ h1 h2 => le_trans h2 h1⟩

/-- Python's stable `list.sort(key=..., reverse=True)`: a stable descending
sort by `overall_score`, embedded as insertion sort (stable by construction:
an element is inserted after every earlier element of equal score). -/
def sortDesc (l : List MatchScore) : List MatchScore := List.insertionSort msGe l

/-- The pre-sort candidate list built by the loop of
`MatchingEngine.find_best_matches` (lines 399–411), in pool iteration order:
skip the subject and incomplete profiles, score the rest, keep the scores
reaching `min_score`. -/
def match_candidates (pool : List PersonalityProfile) (user_profile : PersonalityProfile)
    (user_id : String) (min_score : ℚ) : List MatchScore :=
  ((pool.filter (fun p => !(p.user_id == user_id) && p.is_complete)).map
    (calculate_match_score user_profile)).filter
      (fun m => decide (min_score ≤ m.overall_score))

/-- `MatchingEngine.find_best_matches` (lines 374–416).  The engine's
`user_profiles` dict is embedded as a list of profiles in insertion order,
keyed by `user_id` (`add_profile` keys every profile by its own `user_id`). -/
def find_best_matches (pool : List PersonalityProfile) (user_id : String)
    (limit : ℕ) (min_score : ℚ) : List MatchScore :=
  match pool.find? (fun p => p.user_id == user_id) with
  | none => []
  | some user_profile =>
    if user_profile.is_complete then
      (sortDesc (match_candidates pool user_profile user_id min_score)).take limit
    else []

/-! ## Range predicates used by the invariants -/

/-- All five scores of an evidence vector lie in [0,1]. -/
def scores_in01 (v : TraitVec) : Prop :=
  0 ≤ v.openness ∧ v.openness ≤ 1 ∧
  0 ≤ v.conscientiousness ∧ v.conscientiousness ≤ 1 ∧
  0 ≤ v.extraversion ∧ v.extraversion ≤ 1 ∧
  0 ≤ v.agreeableness ∧ v.agreeableness ≤ 1 ∧
  0 ≤ v.neuroticism ∧ v.neuroticism ≤ 1

instance (v : TraitVec) : Decidable (scores_in01 v) := by
  unfold scores_in01; infer_instance

/-- All five trait scores of a profile lie in [0,1]. -/
def traits_in01 (p : PersonalityProfile) : Prop :=
  0 ≤ p.openness ∧ p.openness ≤ 1 ∧
  0 ≤ p.conscientiousness ∧ p.conscientiousness ≤ 1 ∧
  0 ≤ p.extraversion ∧ p.extraversion ≤ 1 ∧
  0 ≤ p.agreeableness ∧ p.agreeableness ≤ 1 ∧
  0 ≤ p.neuroticism ∧ p.neuroticism ≤ 1

instance (p : PersonalityProfile) : Decidable (traits_in01 p) := by
  unfold traits_in01; infer_instance

/-- The learning rate `alpha = max(0.1, 1/(message_count+1))` lies in
[1/10, 1]. -/
theorem alphaOf_mem (mc : ℕ) : 1/10 ≤ alphaOf mc ∧ alphaOf mc ≤ 1 := by
  unfold alphaOf
  refine ⟨le_max_left _ _, max_le (by norm_num) ?_⟩
  rw [div_le_one (by positivity)]
  have : (0 : ℚ) ≤ (mc : ℚ) := Nat.cast_nonneg mc
  linarith

/-- A convex combination of two values in [0,1] stays in [0,1]. -/
theorem ema_in01 (a old s : ℚ) (ha0 : 0 ≤ a) (ha1 : a ≤ 1)
    (ho0 : 0 ≤ old) (ho1 : old ≤ 1) (hs0 : 0 ≤ s) (hs1 : s ≤ 1) :
    0 ≤ (1 - a) * old + a * s ∧ (1 - a) * old + a * s ≤ 1 := by
  constructor
  · have h1 : 0 ≤ (1 - a) * old := mul_nonneg (by linarith) ho0
    have h2 : 0 ≤ a * s := mul_nonneg ha0 hs0
    linarith
  · nlinarith [mul_nonneg (sub_nonneg.2 ha1) (sub_nonneg.2 ho1),
      mul_nonneg ha0 (sub_nonneg.2 hs1)]

/-! ## The claims -/

/-- Claim C1: one update step combines lexicon and classifier vectors per
trait as `0.3*lexicon + 0.7*classifier`, then each trait score becomes
`(1-alpha)*old + alpha*combined` with `alpha = max(0.1, 1/(message_count+1))`,
and `analysis_confidence` becomes `min(0.95, message_count/50)`. -/
theorem update_step_formula (profile : PersonalityProfile) (lexicon classifier : TraitVec)
    (message_count : ℕ) :
    (update_personality_profile profile (combineScores lexicon classifier)
        message_count).openness
      = (1 - alphaOf message_count) * profile.openness
        + alphaOf message_count * (3/10 * lexicon.openness + 7/10 * classifier.openness) ∧
    (update_personality_profile profile (combineScores lexicon classifier)
        message_count).conscientiousness
      = (1 - alphaOf message_count) * profile.conscientiousness
        + alphaOf message_count
          * (3/10 * lexicon.conscientiousness + 7/10 * classifier.conscientiousness) ∧
    (update_personality_profile profile (combineScores lexicon classifier)
        message_count).extraversion
      = (1 - alphaOf message_count) * profile.extraversion
        + alphaOf message_count
          * (3/10 * lexicon.extraversion + 7/10 * classifier.extraversion) ∧
    (update_personality_profile profile (combineScores lexicon classifier)
        message_count).agreeableness
      = (1 - alphaOf message_count) * profile.agreeableness
        + alphaOf message_count
          * (3/10 * lexicon.agreeableness + 7/10 * classifier.agreeableness) ∧
    (update_personality_profile profile (combineScores lexicon classifier)
        message_count).neuroticism
      = (1 - alphaOf message_count) * profile.neuroticism
        + alphaOf message_count
          * (3/10 * lexicon.neuroticism + 7/10 * classifier.neuroticism) ∧
    (update_personality_profile profile (combineScores lexicon classifier)
        message_count).analysis_confidence
      = min (95/100) ((message_count : ℚ) / 50) ∧
    alphaOf message_count = max (1/10) (1 / ((message_count : ℚ) + 1)) := by
  unfold update_personality_profile combineScores alphaOf
  refine ⟨by ring, by ring, by ring, by ring, by ring, rfl, rfl⟩

/-- Claim C4: for evidence vectors and profiles with scores in [0,1], the
updated trait scores stay in [0,1]; `analysis_confidence` is non-decreasing
in `message_count` and never exceeds 0.95. -/
theorem update_preserves_ranges (p : PersonalityProfile) (s : TraitVec) (mc : ℕ)
    (hs : scores_in01 s) (hp : traits_in01 p) :
    traits_in01 (update_personality_profile p s mc) ∧
    (∀ m n : ℕ, m ≤ n →
      (update_personality_profile p s m).analysis_confidence ≤
        (update_personality_profile p s n).analysis_confidence) ∧
    (update_personality_profile p s mc).analysis_confidence ≤ 95/100 := by
  obtain ⟨ha0, ha1⟩ := alphaOf_mem mc
  have ha0' : (0 : ℚ) ≤ alphaOf mc := le_trans (by norm_num) ha0
  obtain ⟨hs1, hs2, hs3, hs4, hs5, hs6, hs7, hs8, hs9, hs10⟩ := hs
  obtain ⟨hp1, hp2, hp3, hp4, hp5, hp6, hp7, hp8, hp9, hp10⟩ := hp
  refine ⟨?_, ?_, ?_⟩
  · unfold update_personality_profile traits_in01
    obtain ⟨o1, o2⟩ := ema_in01 (alphaOf mc) p.openness s.openness ha0' ha1 hp1 hp2 hs1 hs2
    obtain ⟨c1, c2⟩ := ema_in01 (alphaOf mc) p.conscientiousness s.conscientiousness
      ha0' ha1 hp3 hp4 hs3 hs4
    obtain ⟨e1, e2⟩ := ema_in01 (alphaOf mc) p.extraversion s.extraversion ha0' ha1 hp5 hp6 hs5 hs6
    obtain ⟨g1, g2⟩ := ema_in01 (alphaOf mc) p.agreeableness s.agreeableness
      ha0' ha1 hp7 hp8 hs7 hs8
    obtain ⟨n1, n2⟩ := ema_in01 (alphaOf mc) p.neuroticism s.neuroticism ha0' ha1 hp9 hp10 hs9 hs10
    exact ⟨o1, o2, c1, c2, e1, e2, g1, g2, n1, n2⟩
  · intro m n hmn
    unfold update_personality_profile
    refine min_le_min (le_refl _) ?_
    have : (m : ℚ) ≤ (n : ℚ) := Nat.cast_le.2 hmn
    linarith
  · unfold update_personality_profile
    exact min_le_left _ _

/-- Witness for C4 at concrete inputs: the all-neutral evidence vector and the
default profile satisfy the range hypotheses, and the update at
`message_count = 3` keeps the traits in [0,1]. -/
theorem update_preserves_ranges_witness :
    scores_in01 ⟨1/2, 1/2, 1/2, 1/2, 1/2⟩ ∧
    traits_in01 { user_id := "w4" } ∧
    traits_in01 (update_personality_profile { user_id := "w4" } ⟨1/2, 1/2, 1/2, 1/2, 1/2⟩ 3) :=
  ⟨by with_unfolding_all decide, by with_unfolding_all decide,
    (update_preserves_ranges { user_id := "w4" } ⟨1/2, 1/2, 1/2, 1/2, 1/2⟩ 3
      (by with_unfolding_all decide) (by with_unfolding_all decide)).1⟩

/-- Claim C5: `is_complete` is monotonic across updates, and every update
with `message_count >= 30` sets it true. -/
theorem is_complete_monotone (p : PersonalityProfile) (s : TraitVec) (mc : ℕ) :
    (p.is_complete = true → (update_personality_profile p s mc).is_complete = true) ∧
    (30 ≤ mc → (update_personality_profile p s mc).is_complete = true) := by
  unfold update_personality_profile
  constructor
  · intro h
    simp only [h]
    split <;> rfl
  · intro h
    simp only [if_pos h]

/-- Witness for C5: a completed profile stays complete after an update with
`message_count = 0`, and an incomplete profile becomes complete at
`message_count = 31`. -/
theorem is_complete_monotone_witness :
    (update_personality_profile { user_id := "w5", is_complete := true }
      ⟨1/2, 1/2, 1/2, 1/2, 1/2⟩ 0).is_complete = true ∧
    (update_personality_profile { user_id := "w5b" }
      ⟨1/2, 1/2, 1/2, 1/2, 1/2⟩ 31).is_complete = true :=
  ⟨(is_complete_monotone { user_id := "w5", is_complete := true }
      ⟨1/2, 1/2, 1/2, 1/2, 1/2⟩ 0).1 (by decide),
   (is_complete_monotone { user_id := "w5b" }
      ⟨1/2, 1/2, 1/2, 1/2, 1/2⟩ 31).2 (by decide)⟩

/-- Claim C8: the analysis phase is 1 for n < 6, 2 for n < 12, 3 for n < 18,
4 for n < 24, and 5 otherwise; in particular the phase at n = 0 is 1. -/
theorem calculate_phase_spec (n : ℕ) :
    (n < 6 → calculate_phase n = 1) ∧
    (6 ≤ n → n < 12 → calculate_phase n = 2) ∧
    (12 ≤ n → n < 18 → calculate_phase n = 3) ∧
    (18 ≤ n → n < 24 → calculate_phase n = 4) ∧
    (24 ≤ n → calculate_phase n = 5) ∧
    calculate_phase 0 = 1 := by
  unfold calculate_phase
  refine ⟨fun h => ?_, fun h1 h2 => ?_, fun h1 h2 => ?_, fun h1 h2 => ?_, fun h => ?_, rfl⟩
    <;> split_ifs <;> first | rfl | omega

/-- Witness for C8: phase 2 at n = 7, phase 5 at n = 24. -/
theorem calculate_phase_spec_witness :
    calculate_phase 7 = 2 ∧ calculate_phase 24 = 5 :=
  ⟨(calculate_phase_spec 7).2.1 (by decide) (by decide),
   (calculate_phase_spec 24).2.2.2.2.1 (by decide)⟩

/-- Claim C9 (code behaviour at the failing inputs): the update performs no
input validation.  With `message_count = -2` it proceeds silently, computing
`alpha = max(0.1, 1/(-1)) = 0.1` and writing the out-of-range confidence
`-1/25`; with an externally supplied trait score `1.5` and
`message_count = 0` it proceeds and stores the out-of-range trait score
`1.5`.  No validation error is raised in either case. -/
theorem update_no_validation :
    update_personality_profile_int { user_id := "c9" } ⟨3/2, 1/2, 1/2, 1/2, 1/2⟩ (-2)
      = .ok { user_id := "c9", openness := 3/5, conscientiousness := 1/2,
              extraversion := 1/2, agreeableness := 1/2, neuroticism := 1/2,
              communication_style := none, interests := [],
              analysis_confidence := -1/25, total_messages_analyzed := -2,
              is_complete := false } ∧
    update_personality_profile_int { user_id := "c9" } ⟨3/2, 1/2, 1/2, 1/2, 1/2⟩ 0
      = .ok { user_id := "c9", openness := 3/2, conscientiousness := 1/2,
              extraversion := 1/2, agreeableness := 1/2, neuroticism := 1/2,
              communication_style := none, interests := [],
              analysis_confidence := 0, total_messages_analyzed := 0,
              is_complete := false } := by
  constructor <;> with_unfolding_all rfl

/-- Claim C10: after an update with `message_count >= 30` the confidence
`min(0.95, message_count/50)` is at least 0.6, so the completion gate
`message_count >= 30 ∧ analysis_confidence >= 0.6` of
`ConversationAI.process_message` is equivalent to `message_count >= 30`
alone. -/
theorem confidence_gate_redundant (p : PersonalityProfile) (s : TraitVec) (mc : ℕ) :
    (30 ≤ mc → 3/5 ≤ (update_personality_profile p s mc).analysis_confidence) ∧
    (completion_gate mc (update_personality_profile p s mc).analysis_confidence ↔ 30 ≤ mc) := by
  have key : 30 ≤ mc → 3/5 ≤ (update_personality_profile p s mc).analysis_confidence := by
    intro h
    unfold update_personality_profile
    refine le_min (by norm_num) ?_
    have : (30 : ℚ) ≤ (mc : ℚ) := by exact_mod_cast h
    linarith
  exact ⟨key, ⟨fun hg => hg.1, fun h => ⟨h, key h⟩⟩⟩

/-- Witness for C10 at `message_count = 30` on the default profile. -/
theorem confidence_gate_redundant_witness :
    3/5 ≤ (update_personality_profile { user_id := "w10" }
      ⟨1/2, 1/2, 1/2, 1/2, 1/2⟩ 30).analysis_confidence :=
  (confidence_gate_redundant { user_id := "w10" } ⟨1/2, 1/2, 1/2, 1/2, 1/2⟩ 30).1 (by decide)

/-- Modelled from the claim wording (refinement side of C6): the four weighted
type scores, and the winner is the first label in the order deep,
activity_based, intellectual, casual that attains the maximum. -/
def firstMaxLabel (p1 p2 : PersonalityProfile) (trait_scores : TraitVec) : String :=
  let aO := (p1.openness + p2.openness) / 2
  let aE := (p1.extraversion + p2.extraversion) / 2
  let aA := (p1.agreeableness + p2.agreeableness) / 2
  let aC := (p1.conscientiousness + p2.conscientiousness) / 2
  let aN := (p1.neuroticism + p2.neuroticism) / 2
  let deep := 3/10 * aO + 4/10 * aA + 3/10 * trait_scores.openness
  let act := 4/10 * aE + 3/10 * aC + 3/10 * (1 - aN)
  let intel := 1/2 * aO + 3/10 * aC + 2/10 * trait_scores.openness
  let cas := 4/10 * aA + 4/10 * (1 - aN) + 2/10 * (1/2)
  if act ≤ deep ∧ intel ≤ deep ∧ cas ≤ deep then "deep"
  else if deep < act ∧ intel ≤ act ∧ cas ≤ act then "activity_based"
  else if deep < intel ∧ act < intel ∧ cas ≤ intel then "intellectual"
  else "casual"

/-- `bestOf` on the four label/score pairs returns the first label attaining
the maximal score. -/
theorem bestOf4_spec (d a i c : ℚ) :
    bestOf ("deep", d) [("activity_based", a), ("intellectual", i), ("casual", c)] =
      (if a ≤ d ∧ i ≤ d ∧ c ≤ d then "deep"
       else if d < a ∧ i ≤ a ∧ c ≤ a then "activity_based"
       else if d < i ∧ a < i ∧ c ≤ i then "intellectual"
       else "casual") := by
  simp only [bestOf]
  rcases lt_or_le d a with h1 | h1
  · rw [if_pos h1]
    rcases lt_or_le a i with h2 | h2
    · rw [if_pos h2]
      rcases lt_or_le i c with h3 | h3
      · rw [if_pos h3,
          if_neg (fun hh => absurd hh.1 (not_le.2 h1)),
          if_neg (fun hh => absurd hh.2.1 (not_le.2 h2)),
          if_neg (fun hh => absurd hh.2.2 (not_le.2 h3))]
      · rw [if_neg (not_lt.2 h3),
          if_neg (fun hh => absurd hh.1 (not_le.2 h1)),
          if_neg (fun hh => absurd hh.2.1 (not_le.2 h2)),
          if_pos ⟨lt_trans h1 h2, h2, h3⟩]
    · rw [if_neg (not_lt.2 h2)]
      rcases lt_or_le a c with h3 | h3
      · rw [if_pos h3,
          if_neg (fun hh => absurd hh.1 (not_le.2 h1)),
          if_neg (fun hh => absurd hh.2.2 (not_le.2 h3)),
          if_neg (fun hh => absurd hh.2.1 (not_lt.2 h2))]
      · rw [if_neg (not_lt.2 h3),
          if_neg (fun hh => absurd hh.1 (not_le.2 h1)),
          if_pos ⟨h1, h2, h3⟩]
  · rw [if_neg (not_lt.2 h1)]
    rcases lt_or_le d i with h2 | h2
    · rw [if_pos h2]
      rcases lt_or_le i c with h3 | h3
      · rw [if_pos h3,
          if_neg (fun hh => absurd hh.2.1 (not_le.2 h2)),
          if_neg (fun hh => absurd hh.1 (not_lt.2 h1)),
          if_neg (fun hh => absurd hh.2.2 (not_le.2 h3))]
      · rw [if_neg (not_lt.2 h3),
          if_neg (fun hh => absurd hh.2.1 (not_le.2 h2)),
          if_neg (fun hh => absurd hh.1 (not_lt.2 h1)),
          if_pos ⟨h2, lt_of_le_of_lt h1 h2, h3⟩]
    · rw [if_neg (not_lt.2 h2)]
      rcases lt_or_le d c with h3 | h3
      · rw [if_pos h3,
          if_neg (fun hh => absurd hh.2.2 (not_le.2 h3)),
          if_neg (fun hh => absurd hh.1 (not_lt.2 h1)),
          if_neg (fun hh => absurd hh.1 (not_lt.2 h2))]
      · rw [if_neg (not_lt.2 h3),
          if_pos ⟨h1, h2, h3⟩]

/-- Claim C6: the predicted friendship type is the label whose weighted
formula attains the maximum, ties resolved in favour of the first label in
the order deep, activity_based, intellectual, casual. -/
theorem predict_friendship_type_spec (p1 p2 : PersonalityProfile) (trait_scores : TraitVec) :
    predict_friendship_type p1 p2 trait_scores = firstMaxLabel p1 p2 trait_scores := by
  simp only [predict_friendship_type, firstMaxLabel]
  rw [bestOf4_spec]
  rw [show (p1.openness + p2.openness) / 2 * (3/10)
        + (p1.agreeableness + p2.agreeableness) / 2 * (4/10)
        + trait_scores.openness * (3/10)
      = 3/10 * ((p1.openness + p2.openness) / 2)
        + 4/10 * ((p1.agreeableness + p2.agreeableness) / 2)
        + 3/10 * trait_scores.openness from by ring,
    show (p1.extraversion + p2.extraversion) / 2 * (4/10)
        + (p1.conscientiousness + p2.conscientiousness) / 2 * (3/10)
        + (1 - (p1.neuroticism + p2.neuroticism) / 2) * (3/10)
      = 4/10 * ((p1.extraversion + p2.extraversion) / 2)
        + 3/10 * ((p1.conscientiousness + p2.conscientiousness) / 2)
        + 3/10 * (1 - (p1.neuroticism + p2.neuroticism) / 2) from by ring,
    show (p1.openness + p2.openness) / 2 * (1/2)
        + (p1.conscientiousness + p2.conscientiousness) / 2 * (3/10)
        + trait_scores.openness * (2/10)
      = 1/2 * ((p1.openness + p2.openness) / 2)
        + 3/10 * ((p1.conscientiousness + p2.conscientiousness) / 2)
        + 2/10 * trait_scores.openness from by ring,
    show (p1.agreeableness + p2.agreeableness) / 2 * (4/10)
        + (1 - (p1.neuroticism + p2.neuroticism) / 2) * (4/10) + 1/2 * (2/10)
      = 4/10 * ((p1.agreeableness + p2.agreeableness) / 2)
        + 4/10 * (1 - (p1.neuroticism + p2.neuroticism) / 2) + 2/10 * (1/2) from by ring]

/-- Interest overlap is symmetric in its two profile arguments. -/
theorem calculate_interest_overlap_comm (p1 p2 : PersonalityProfile) :
    calculate_interest_overlap p1 p2 = calculate_interest_overlap p2 p1 := by
  unfold calculate_interest_overlap
  by_cases h1 : p1.interests = [] <;> by_cases h2 : p2.interests = [] <;>
    simp [h1, h2, Finset.inter_comm, Finset.union_comm, or_comm]

/-- Claim C7: interest overlap is symmetric, equals 1/2 when either interest
list is empty, and otherwise equals the Jaccard similarity of the lowercased
interest sets with a 0.1 bonus capped at 1 when at least two interests are
shared. -/
theorem interest_overlap_spec (p1 p2 : PersonalityProfile) :
    calculate_interest_overlap p1 p2 = calculate_interest_overlap p2 p1 ∧
    (p1.interests = [] ∨ p2.interests = [] → calculate_interest_overlap p1 p2 = 1/2) ∧
    (p1.interests ≠ [] → p2.interests ≠ [] →
      calculate_interest_overlap p1 p2 =
        (if 2 ≤ ((interestSet p1.interests) ∩ (interestSet p2.interests)).card then
          min 1 ((((interestSet p1.interests) ∩ (interestSet p2.interests)).card : ℚ)
            / (((interestSet p1.interests) ∪ (interestSet p2.interests)).card : ℚ) + 1/10)
        else
          (((interestSet p1.interests) ∩ (interestSet p2.interests)).card : ℚ)
            / (((interestSet p1.interests) ∪ (interestSet p2.interests)).card : ℚ))) := by
  refine ⟨calculate_interest_overlap_comm p1 p2, ?_, ?_⟩
  · intro h
    unfold calculate_interest_overlap
    simp [h]
  · intro h1 h2
    have hs1 : interestSet p1.interests ≠ ∅ := by
      unfold interestSet
      simp [List.toFinset_eq_empty_iff, h1]
    have hs2 : interestSet p2.interests ≠ ∅ := by
      unfold interestSet
      simp [List.toFinset_eq_empty_iff, h2]
    have huni : (interestSet p1.interests ∪ interestSet p2.interests).card ≠ 0 := by
      simp only [ne_eq, Finset.card_eq_zero, Finset.union_eq_empty]
      exact fun hc => hs1 hc.1
    unfold calculate_interest_overlap
    simp only [h1, h2, or_self, if_false, hs1, hs2, huni, ite_false]

/-- Witness for C7: profiles with interests `["A", "b"]` and `["a", "c"]`
share one normalized interest out of three, giving overlap 1/3. -/
theorem interest_overlap_spec_witness :
    calculate_interest_overlap { user_id := "w7a", interests := ["A", "b"] }
      { user_id := "w7b", interests := ["a", "c"] } = 1/3 := by
  have h := (interest_overlap_spec { user_id := "w7a", interests := ["A", "b"] }
    { user_id := "w7b", interests := ["a", "c"] }).2.2 (by decide) (by decide)
  rw [h]
  with_unfolding_all decide

/-! ## Symmetry of the match-score components (claim C3) -/

theorem similar_score_comm (a b : ℚ) : similar_score a b = similar_score b a := by
  unfold similar_score
  rw [abs_sub_comm]

theorem balanced_score_comm (a b : ℚ) : balanced_score a b = balanced_score b a := by
  unfold balanced_score
  rw [abs_sub_comm]

theorem low_both_score_comm (a b : ℚ) : low_both_score a b = low_both_score b a := by
  unfold low_both_score
  rw [add_comm]

theorem trait_compat_comm (p1 p2 : PersonalityProfile) :
    calculate_trait_compatibility p1 p2 = calculate_trait_compatibility p2 p1 := by
  unfold calculate_trait_compatibility
  rw [similar_score_comm p1.openness p2.openness,
    similar_score_comm p1.conscientiousness p2.conscientiousness,
    balanced_score_comm p1.extraversion p2.extraversion,
    similar_score_comm p1.agreeableness p2.agreeableness,
    low_both_score_comm p1.neuroticism p2.neuroticism]

set_option maxHeartbeats 1000000 in
/-- A successful matrix lookup implies both styles are among the four known
communication styles. -/
theorem comm_matrix_isSome_known (s1 s2 : String) (h : (comm_matrix s1 s2).isSome) :
    (s1 = "direct" ∨ s1 = "diplomatic" ∨ s1 = "expressive" ∨ s1 = "reserved") ∧
    (s2 = "direct" ∨ s2 = "diplomatic" ∨ s2 = "expressive" ∨ s2 = "reserved") := by
  unfold comm_matrix at h
  split_ifs at h with c1 c2 c3 c4 c5 c6 c7 c8 c9 c10
  · exact ⟨Or.inl c1.1, Or.inl c1.2⟩
  · exact ⟨Or.inl c2.1, Or.inr (Or.inl c2.2)⟩
  · exact ⟨Or.inl c3.1, Or.inr (Or.inr (Or.inl c3.2))⟩
  · exact ⟨Or.inl c4.1, Or.inr (Or.inr (Or.inr c4.2))⟩
  · exact ⟨Or.inr (Or.inl c5.1), Or.inr (Or.inl c5.2)⟩
  · exact ⟨Or.inr (Or.inl c6.1), Or.inr (Or.inr (Or.inl c6.2))⟩
  · exact ⟨Or.inr (Or.inl c7.1), Or.inr (Or.inr (Or.inr c7.2))⟩
  · exact ⟨Or.inr (Or.inr (Or.inl c8.1)), Or.inr (Or.inr (Or.inl c8.2))⟩
  · exact ⟨Or.inr (Or.inr (Or.inl c9.1)), Or.inr (Or.inr (Or.inr c9.2))⟩
  · exact ⟨Or.inr (Or.inr (Or.inr c10.1)), Or.inr (Or.inr (Or.inr c10.2))⟩
  · simp at h

/-- On the known styles, whenever both lookup directions succeed they return
the same value (they both succeed only on the diagonal). -/
theorem comm_matrix_symm_known (s1 s2 : String)
    (hk1 : s1 = "direct" ∨ s1 = "diplomatic" ∨ s1 = "expressive" ∨ s1 = "reserved")
    (hk2 : s2 = "direct" ∨ s2 = "diplomatic" ∨ s2 = "expressive" ∨ s2 = "reserved")
    (h12 : (comm_matrix s1 s2).isSome) (h21 : (comm_matrix s2 s1).isSome) :
    comm_matrix s1 s2 = comm_matrix s2 s1 := by
  rcases hk1 with rfl | rfl | rfl | rfl <;>
    rcases hk2 with rfl | rfl | rfl | rfl <;>
    first
    | rfl
    | (exact absurd h12 (by with_unfolding_all decide))
    | (exact absurd h21 (by with_unfolding_all decide))

theorem comm_compat_comm (p1 p2 : PersonalityProfile) :
    calculate_communication_compatibility p1 p2 =
      calculate_communication_compatibility p2 p1 := by
  unfold calculate_communication_compatibility
  rcases p1.communication_style with _ | s1 <;> rcases p2.communication_style with _ | s2
  · rfl
  · rfl
  · rfl
  · show (if s1 = "" ∨ s2 = "" then (1 : ℚ)/2
        else match comm_matrix s1 s2 with
          | some v => v
          | none =>
            match comm_matrix s2 s1 with
            | some v => v
            | none => 1/2) =
      (if s2 = "" ∨ s1 = "" then (1 : ℚ)/2
        else match comm_matrix s2 s1 with
          | some v => v
          | none =>
            match comm_matrix s1 s2 with
            | some v => v
            | none => 1/2)
    by_cases he : s1 = "" ∨ s2 = ""
    · rw [if_pos he, if_pos (Or.symm he)]
    · rw [if_neg he, if_neg (fun hc => he (Or.symm hc))]
      rcases h12 : comm_matrix s1 s2 with _ | v1 <;>
        rcases h21 : comm_matrix s2 s1 with _ | v2 <;>
        simp only [h12, h21]
      have hk := comm_matrix_isSome_known s1 s2 (by simp [h12])
      have hsym := comm_matrix_symm_known s1 s2 hk.1 hk.2 (by simp [h12]) (by simp [h21])
      rw [h12, h21] at hsym
      exact Option.some.inj hsym

theorem predict_friendship_type_comm (p1 p2 : PersonalityProfile) (ts : TraitVec) :
    predict_friendship_type p1 p2 ts = predict_friendship_type p2 p1 ts := by
  simp only [predict_friendship_type]
  rw [add_comm p1.openness p2.openness, add_comm p1.extraversion p2.extraversion,
    add_comm p1.agreeableness p2.agreeableness,
    add_comm p1.conscientiousness p2.conscientiousness,
    add_comm p1.neuroticism p2.neuroticism]

theorem common_interests_comm (p1 p2 : PersonalityProfile) :
    common_interests p1 p2 = common_interests p2 p1 :=
  Finset.inter_comm _ _

theorem generate_match_reasons_comm (p1 p2 : PersonalityProfile) (ts : TraitVec) (io2 : ℚ) :
    generate_match_reasons p1 p2 ts io2 = generate_match_reasons p2 p1 ts io2 := by
  unfold generate_match_reasons
  rw [common_interests_comm p1 p2]
  by_cases h : p1.communication_style = p2.communication_style
  · rw [h]
  · rw [if_neg h,
      if_neg (show ¬(p2.communication_style = p1.communication_style) from
        fun hc => h hc.symm)]

/-- Claim C3 (amended): all components of the Match Score record except the
challenge list are symmetric under swapping the two profiles — the overall
score, the per-trait compatibility mapping, the interest overlap, the
communication compatibility, the friendship-type label and the reasons
list. -/
theorem calculate_match_score_symm (p1 p2 : PersonalityProfile) :
    (calculate_match_score p1 p2).overall_score
      = (calculate_match_score p2 p1).overall_score ∧
    (calculate_match_score p1 p2).trait_compatibility
      = (calculate_match_score p2 p1).trait_compatibility ∧
    (calculate_match_score p1 p2).interest_overlap
      = (calculate_match_score p2 p1).interest_overlap ∧
    (calculate_match_score p1 p2).communication_compatibility
      = (calculate_match_score p2 p1).communication_compatibility ∧
    (calculate_match_score p1 p2).predicted_friendship_type
      = (calculate_match_score p2 p1).predicted_friendship_type ∧
    (calculate_match_score p1 p2).match_reasons
      = (calculate_match_score p2 p1).match_reasons := by
  have htc := trait_compat_comm p1 p2
  have hio := calculate_interest_overlap_comm p1 p2
  have hcc := comm_compat_comm p1 p2
  simp only [calculate_match_score]
  refine ⟨?_, ?_, ?_, ?_, ?_, ?_⟩
  · rw [htc, hio, hcc]
  · exact htc
  · rw [hio]
  · rw [hcc]
  · rw [htc, predict_friendship_type_comm]
  · rw [htc, hio, generate_match_reasons_comm]

/-- Counterexample to C3 as stated: with extraversion 1 against extraversion
0, the challenge list depends on the argument order (the code words the
extraversion-gap challenge differently depending on which profile is more
extraverted, matching_engine.py lines 350–356). -/
theorem calculate_match_score_not_symm :
    (calculate_match_score
        { user_id := "x3a", extraversion := 1, is_complete := true }
        { user_id := "x3b", extraversion := 0, is_complete := true }).potential_challenges ≠
      (calculate_match_score
        { user_id := "x3b", extraversion := 0, is_complete := true }
        { user_id := "x3a", extraversion := 1, is_complete := true }).potential_challenges := by
  with_unfolding_all decide

/-! ## Ranking (claim C2) -/

/-- Inserting an element into a list places it after every element of
strictly greater score and before the rest, so the sub-list of any fixed
score is extended at its head exactly when the new element has that score. -/
theorem filter_orderedInsert (s : ℚ) (a : MatchScore) (l : List MatchScore) :
    (List.orderedInsert msGe a l).filter (fun m => decide (m.overall_score = s)) =
      if a.overall_score = s then
        a :: l.filter (fun m => decide (m.overall_score = s))
      else l.filter (fun m => decide (m.overall_score = s)) := by
  induction l with
  | nil =>
    simp only [List.orderedInsert, List.filter]
    by_cases ha : a.overall_score = s
    · rw [if_pos ha]
      simp [ha]
    · rw [if_neg ha]
      simp [ha]
  | cons b t ih =>
    simp only [List.orderedInsert]
    by_cases hr : msGe a b
    · rw [if_pos hr]
      by_cases ha : a.overall_score = s <;>
        simp [List.filter_cons, ha]
    · rw [if_neg hr]
      by_cases hb : b.overall_score = s <;> by_cases ha : a.overall_score = s
      · exact absurd (le_of_eq (hb.trans ha.symm)) hr
      · simp [List.filter_cons, hb, ha, ih]
      · simp [List.filter_cons, hb, ha, ih]
      · simp [List.filter_cons, hb, ha, ih]

/-- The stable descending sort preserves the relative order of entries of any
fixed overall score (classical stability characterization). -/
theorem filter_sortDesc (s : ℚ) (l : List MatchScore) :
    (sortDesc l).filter (fun m => decide (m.overall_score = s)) =
      l.filter (fun m => decide (m.overall_score = s)) := by
  induction l with
  | nil => rfl
  | cons b t ih =>
    show (List.orderedInsert msGe b (sortDesc t)).filter _ = _
    rw [filter_orderedInsert, ih]
    by_cases hb : b.overall_score = s <;> simp [List.filter_cons, hb]

theorem sortDesc_sorted (l : List MatchScore) : List.Sorted msGe (sortDesc l) :=
  List.sorted_insertionSort msGe l

theorem sortDesc_perm (l : List MatchScore) : List.Perm (sortDesc l) l :=
  List.perm_insertionSort msGe l

theorem find_best_matches_eq_of_found (pool : List PersonalityProfile) (user_id : String)
    (limit : ℕ) (min_score : ℚ) (up : PersonalityProfile)
    (hfind : pool.find? (fun p => p.user_id == user_id) = some up)
    (hc : up.is_complete = true) :
    find_best_matches pool user_id limit min_score =
      (sortDesc (match_candidates pool up user_id min_score)).take limit := by
  unfold find_best_matches
  rw [hfind]
  simp [hc]

/-- Claim C2: ranking never returns the querying subject or an incomplete
profile, returns an empty list when the subject is missing or incomplete,
keeps only matches with `overall_score >= min_score`, returns at most `limit`
entries, sorted descending by `overall_score`, with ties preserving the
original pool iteration order (the filtered result at each fixed score is a
sub-list of the candidate list, which follows pool order). -/
theorem find_best_matches_spec (pool : List PersonalityProfile) (user_id : String)
    (limit : ℕ) (min_score : ℚ) :
    (pool.find? (fun p => p.user_id == user_id) = none →
      find_best_matches pool user_id limit min_score = []) ∧
    (∀ up, pool.find? (fun p => p.user_id == user_id) = some up →
      (up.is_complete = false → find_best_matches pool user_id limit min_score = []) ∧
      (up.is_complete = true →
        (∀ m ∈ find_best_matches pool user_id limit min_score,
          m.user_id_2 ≠ user_id ∧ min_score ≤ m.overall_score ∧
          ∃ p, p ∈ pool ∧ p.is_complete = true ∧ p.user_id ≠ user_id ∧
            m = calculate_match_score up p) ∧
        (find_best_matches pool user_id limit min_score).length ≤ limit ∧
        List.Sorted msGe (find_best_matches pool user_id limit min_score) ∧
        (∀ s : ℚ,
          List.Sublist
            ((find_best_matches pool user_id limit min_score).filter
              (fun m => decide (m.overall_score = s)))
            ((match_candidates pool up user_id min_score).filter
              (fun m => decide (m.overall_score = s)))))) := by
  refine ⟨fun h => ?_, fun up hfind => ⟨fun h => ?_, fun hc => ?_⟩⟩
  · unfold find_best_matches
    rw [h]
  · unfold find_best_matches
    rw [hfind]
    simp [h]
  · rw [find_best_matches_eq_of_found pool user_id limit min_score up hfind hc]
    refine ⟨?_, ?_, ?_, ?_⟩
    · intro m hm
      have hm1 : m ∈ sortDesc (match_candidates pool up user_id min_score) :=
        (List.take_sublist _ _).subset hm
      have hm2 : m ∈ match_candidates pool up user_id min_score :=
        (sortDesc_perm _).subset hm1
      unfold match_candidates at hm2
      rw [List.mem_filter] at hm2
      obtain ⟨hm3, hscore⟩ := hm2
      rw [List.mem_map] at hm3
      obtain ⟨p', hp', rfl⟩ := hm3
      rw [List.mem_filter] at hp'
      obtain ⟨hpool, hcond⟩ := hp'
      have hcond' : p'.user_id ≠ user_id ∧ p'.is_complete = true := by
        simpa [Bool.and_eq_true, Bool.not_eq_true', beq_eq_false_iff_ne] using hcond
      exact ⟨hcond'.1, of_decide_eq_true hscore,
        p', hpool, hcond'.2, hcond'.1, rfl⟩
    · rw [List.length_take]
      exact min_le_left _ _
    · exact List.Pairwise.sublist (List.take_sublist _ _) (sortDesc_sorted _)
    · intro s
      have h1 := List.Sublist.filter (fun m => decide (m.overall_score = s))
        (List.take_sublist limit (sortDesc (match_candidates pool up user_id min_score)))
      rw [filter_sortDesc] at h1
      exact h1

/-- Subject profile for the C2 witness pool. -/
def w2a : PersonalityProfile := { user_id := "w2a", is_complete := true }

/-- Candidate profile for the C2 witness pool. -/
def w2b : PersonalityProfile := { user_id := "w2b", openness := 1, is_complete := true }

/-- The C2 witness pool. -/
def w2pool : List PersonalityProfile := [w2a, w2b]

/-- Witness for C2 on a concrete two-profile pool: the subject is found and
complete, and the ranking is bounded by the limit and sorted. -/
theorem find_best_matches_spec_witness :
    (find_best_matches w2pool "w2a" 10 0).length ≤ 10 ∧
    List.Sorted msGe (find_best_matches w2pool "w2a" 10 0) :=
  let h := ((find_best_matches_spec w2pool "w2a" 10 0).2 w2a
    (by with_unfolding_all rfl)).2 (by with_unfolding_all rfl)
  ⟨h.2.1, h.2.2.1⟩

end FriendshipAI
